import Mathlib

/-!
# Signup page (`frontend/src/pages/SignUp.jsx`)

A shallow embedding of the `Signup` component: the JavaScript values it
handles, the object operations it uses (property read, object spread,
`Object.keys`, `Object.assign`), its three effects, its submit callback and
the element tree it returns.
-/

namespace SignUp

/-! ## JavaScript values -/

/-- JavaScript values, as far as the component handles them. Numbers are
integers (no fractions, no NaN); a function is an opaque handle. -/
inductive JSVal where
  | undefined
  | null
  | bool (b : Bool)
  | num (n : Int)
  | str (s : String)
  | fn (id : String)
  | arr (items : List JSVal)
  | obj (props : List (String × JSVal))

/-- An object: its own enumerable string-keyed properties, listed in the order
in which `Object.keys` enumerates them. -/
abbrev Obj := List (String × JSVal)

/-- JavaScript truthiness (`ToBoolean`). -/
def truthy : JSVal → Bool
  | .undefined => false
  | .null => false
  | .bool b => b
  | .num n => n != 0
  | .str s => s != ""
  | .fn _ => true
  | .arr _ => true
  | .obj _ => true

/-- `o[k]` on an object: the value of the first property named `k`, or
`undefined`. -/
def getProp : Obj → String → JSVal
  | [], _ => .undefined
  | (k', v) :: rest, k => if k' = k then v else getProp rest k

/-- `k in o` for own properties. -/
def hasKey : Obj → String → Bool
  | [], _ => false
  | (k', _) :: rest, k => if k' = k then true else hasKey rest k

/-- `Object.keys(o)`. -/
def objectKeys (o : Obj) : List String := o.map Prod.fst

/-- `v.k` on a value already known not to be `undefined` or `null`, for a key
`k` that no primitive wrapper, array or function carries (the component reads
only `message` and `signup` this way): an object answers with its property,
everything else with `undefined`. -/
def JSVal.get : JSVal → String → JSVal
  | .obj props, k => getProp props k
  | _, _ => .undefined

/-- `v.k` in general: reading a property of `undefined` or `null` throws a
TypeError, rendered as `none`. -/
def member (v : JSVal) (k : String) : Option JSVal :=
  match v with
  | .undefined => none
  | .null => none
  | w => some (w.get k)

/-- Replace the value of the first property named `k`. -/
def replaceProp : Obj → String → JSVal → Obj
  | [], _, _ => []
  | (k', v') :: rest, k, v =>
    if k' = k then (k, v) :: rest else (k', v') :: replaceProp rest k v

/-- `o[k] = v`: an existing property keeps its place, a new one goes last.
(JavaScript enumerates canonical array-index keys before the others; no
enumeration order of an object built here is observed with such keys.) -/
def setProp (o : Obj) (k : String) (v : JSVal) : Obj :=
  if hasKey o k then replaceProp o k v else o ++ [(k, v)]

/-- `Object.assign(target, source)` on a fresh copy of `target`. -/
def objectAssign (target source : Obj) : Obj :=
  source.foldl (fun acc kv => setProp acc kv.1 kv.2) target

/-- The properties `[0, v0], [1, v1], ...` of an array or of the characters of
a string, counting from `i`. -/
def indexed : Nat → List JSVal → Obj
  | _, [] => []
  | i, v :: vs => (toString i, v) :: indexed (i + 1) vs

/-- The own enumerable properties copied by object spread `{ ...v }`:
those of an object, the indexed elements of an array, the indexed characters
of a string, and nothing for any other value (`undefined` and `null`
included). -/
def spreadProps : JSVal → Obj
  | .obj props => props
  | .arr items => indexed 0 items
  | .str s => indexed 0 (s.data.map fun c => JSVal.str (String.singleton c))
  | _ => []

/-! ## The auth store -/

/-- The updater of the unmount cleanup (line 56):
`(state) => ({ ...state.error, signup: false })`. -/
def cleanupUpdater (state : Obj) : Obj :=
  setProp (objectAssign [] (spreadProps (getProp state "error"))) "signup" (.bool false)

/-- Modelled from the spec: `useAuthStore.setState` belongs to the store
library; the spec calls it the store's state-replace operation and the
unmount claims fix it as shallow-merging: the object returned by the updater
is merged into a copy of the current state, `Object.assign({}, state, next)`. -/
def setState (updater : Obj → Obj) (state : Obj) : Obj :=
  objectAssign state (updater state)

/-- The unmount cleanup of `Signup` (lines 54-58) as a store transition. -/
def unmountCleanup (state : Obj) : Obj :=
  setState cleanupUpdater state

/-- The selector `(state) => state.loading.signup` (line 34). -/
def selectLoading (state : Obj) : Option JSVal :=
  member (getProp state "loading") "signup"

/-- The selector `(state) => state.error.signup` (line 35). -/
def selectError (state : Obj) : Option JSVal :=
  member (getProp state "error") "signup"

/-- The selector `(state) => state.userSignup` (line 36). -/
def selectUserSignup (state : Obj) : JSVal :=
  getProp state "userSignup"

/-! ## The form -/

/-- The five form values (`defaultFormData`, lines 14-20). -/
structure FormData where
  email : String
  username : String
  password : String
  confirmPassword : String
  gender : String
  deriving DecidableEq, Repr

/-- The value `defaultFormData`. -/
def defaultFormData : FormData :=
  { email := "", username := "", password := "", confirmPassword := "", gender := "" }

/-- What `useForm` hands to one render: `formState.errors`,
`formState.isSubmitted` and the current values read by `watch`. -/
structure FormState where
  errors : Obj
  isSubmitted : Bool
  values : FormData

/-- The call `watch(name)`: the current value of a registered field. -/
def watch (values : FormData) (name : String) : JSVal :=
  if name = "email" then .str values.email
  else if name = "username" then .str values.username
  else if name = "password" then .str values.password
  else if name = "confirmPassword" then .str values.confirmPassword
  else if name = "gender" then .str values.gender
  else .undefined

/-- The fields in the order in which the form declares them. -/
def formOrder : List String :=
  ["email", "username", "password", "confirmPassword", "gender"]

/-- The calls the component makes on its collaborators. -/
inductive Call where
  | setFocus (name : String)
  | toastError (message : String)
  | userSignup (data : FormData)
  deriving DecidableEq, Repr

/-! ## Effects -/

/-- The body of the focus effect (lines 41-44):
`const firstError = Object.keys(errors)[0]; if (firstError) setFocus(firstError)`. -/
def focusEffect (errors : Obj) : List Call :=
  match (objectKeys errors).head? with
  | none => []
  | some firstError => if truthy (.str firstError) then [.setFocus firstError] else []

/-- The text of the toast. -/
def toastMessage : String := "Whoops! There was an error with your submission."

/-- The body of the toast effect (lines 47-51). -/
def toastEffect (isSubmitted : Bool) (errors : Obj) : List Call :=
  if isSubmitted && decide ((objectKeys errors).length > 0) then [.toastError toastMessage]
  else []

/-- The callback handed to `handleSubmit` (lines 65-67):
`(data) => { userSignup(data); }`. -/
def submitCallback (data : FormData) : List Call :=
  [.userSignup data]

/-- Modelled from the spec: `handleSubmit` belongs to the form library; the
spec has the submission handler "invoked only when all fields pass schema
validation": the resolver runs on the form values and the callback is called
with those values when the resolver reports no error. The resolver (the shared
schema) is a parameter. -/
def handleSubmit (resolver : FormData → Obj) (callback : FormData → List Call)
    (values : FormData) : List Call :=
  if (objectKeys (resolver values)).isEmpty then callback values else []

/-- The `onSubmit` handler of the form (lines 65-67). -/
def formOnSubmit (resolver : FormData → Obj) (values : FormData) : List Call :=
  handleSubmit resolver submitCallback values

/-! ## Rendering -/

/-- An element tree: text, a JavaScript value in child position (React renders
nothing for `false`, `undefined` and `null`), or an element with its props and
children. -/
inductive Node where
  | text (s : String)
  | value (v : JSVal)
  | elem (type : String) (props : Obj) (children : List Node)

/-- `a || b`. -/
def jsOr (a b : JSVal) : JSVal := if truthy a then a else b

/-- `!a`. -/
def jsNot (a : JSVal) : JSVal := .bool (!truthy a)

/-- `a && node` in child position. -/
def andThen (a : JSVal) (node : Node) : Node :=
  if truthy a then node else .value a

/-- The props returned by `register(name)`: the field's name and the handles
the form library attaches. -/
def register (name : String) : Obj :=
  [("onChange", .fn "onChange"), ("onBlur", .fn "onBlur"), ("name", .str name),
   ("ref", .fn "ref")]

/-- The props of a JSX element: written props and spreads, applied left to
right. -/
def jsxProps (parts : List Obj) : Obj :=
  parts.foldl objectAssign []

/-- The element `<ErrorMessage message={v.message} />`. -/
def errorMessage (v : JSVal) : Node :=
  .elem "ErrorMessage" [("message", v.get "message")] []

/-- The fixed message for an empty confirmPassword (lines 103-105). -/
def requiredMessage : Node :=
  .elem "p" [("className", .str "text-error text-sm mt-1 px-2")] [.text "Password is required."]

/-- `isConfirmedPasswordError` (line 60):
`isSubmitted && !watch("confirmPassword")`. -/
def isConfirmedPasswordError (form : FormState) : JSVal :=
  if truthy (.bool form.isSubmitted) then jsNot (watch form.values "confirmPassword")
  else .bool form.isSubmitted

/-- The children of `<form>` (lines 70-137), given the values of `loading` and
`error` read from the store. -/
def formChildren (form : FormState) (loading error : JSVal) : List Node :=
  let errors := form.errors
  [ .elem "TextInput"
      (jsxProps [[("name", .str "email"), ("type", .str "email")], register "email",
        [("error", jsOr (jsNot (jsNot (getProp errors "email"))) error)]]) [],
    andThen (getProp errors "email") (errorMessage (getProp errors "email")),
    .elem "TextInput"
      (jsxProps [[("name", .str "username")], register "username",
        [("error", jsOr (jsNot (jsNot (getProp errors "username"))) error)]]) [],
    andThen (getProp errors "username") (errorMessage (getProp errors "username")),
    .elem "TextInput"
      (jsxProps [[("name", .str "password"), ("type", .str "password")], register "password",
        [("error", jsOr (jsNot (jsNot (getProp errors "password"))) error)]]) [],
    andThen (getProp errors "password") (errorMessage (getProp errors "password")),
    .elem "TextInput"
      (jsxProps [[("name", .str "confirmPassword"), ("type", .str "password")],
        register "confirmPassword",
        [("error", jsOr (jsNot (jsNot (getProp errors "confirmPassword")))
            (isConfirmedPasswordError form))]]) [],
    (if truthy (isConfirmedPasswordError form) then requiredMessage
    else
      andThen (getProp errors "confirmPassword")
        (errorMessage (getProp errors "confirmPassword"))),
    .elem "RadioButton"
      (jsxProps [[("name", .str "gender")], register "gender",
        [("defaultChecked", .str "male"),
         ("options", .arr
            [.obj [("label", .str "Male"), ("value", .str "male"),
                   ("styleClass", .str "radio-primary")],
             .obj [("label", .str "Female"), ("value", .str "female"),
                   ("styleClass", .str "radio-error")]])]]) [],
    andThen (getProp errors "gender") (errorMessage (getProp errors "gender")),
    .elem "button"
      [("type", .str "submit"), ("className", .str "btn btn-primary w-full"),
       ("disabled", loading)]
      (if truthy loading then
        [.elem "Fragment" []
          [.elem "Loader2" [("className", .str "size-5 animate-spin")] [],
           .text "Loading..."]]
      else [.text "Create Account"]) ]

/-- The tree returned by `Signup` (lines 62-148), given the values of
`loading` and `error` read from the store. -/
def view (form : FormState) (loading error : JSVal) : Node :=
  .elem "AuthForm" [("mode", .str "signup")]
    [ .elem "form" [("onSubmit", .fn "onSubmit"), ("className", .str "space-y-6")]
        (formChildren form loading error),
      .elem "div" [("className", .str "text-center")]
        [ .elem "p" [("className", .str "text-base-content/60")]
            [ .text "Already have an account?", .text " ",
              .elem "Link" [("to", .str "/login"), ("className", .str "link link-primary")]
                [.text "Sign in"] ] ] ]

/-- One render of `Signup`: the store selectors run first (a selector that
reads a flag of a missing slice throws, rendered as `none`), then the tree is
built. -/
def Signup (form : FormState) (store : Obj) : Option Node :=
  match selectLoading store, selectError store with
  | some loading, some error => some (view form loading error)
  | _, _ => none

/-! ## Reading an element tree -/

/-- The children of an element. -/
def Node.children : Node → List Node
  | .elem _ _ cs => cs
  | _ => []

/-- The prop `k` of an element. -/
def Node.prop : Node → String → JSVal
  | .elem _ props _, k => getProp props k
  | _, _ => .undefined

/-- Whether a node is an element of the given type. -/
def isElem (type : String) : Node → Bool
  | .elem t _ _ => t = type
  | _ => false

/-- Whether a node is an element whose `name` prop is the given field. -/
def isNamed (name : String) (n : Node) : Bool :=
  match n.prop "name" with
  | .str s => s = name
  | _ => false

/-- The children of the `<form>` of a rendered tree. -/
def formOf (tree : Node) : List Node :=
  match tree.children.find? (isElem "form") with
  | some form => form.children
  | none => []

/-- The `error` prop of the input of a field. -/
def inputError (name : String) (children : List Node) : JSVal :=
  match children.find? (isNamed name) with
  | some input => input.prop "error"
  | none => .undefined

/-- The node right below the input of a field: the place of its message. -/
def belowInput (name : String) : List Node → Option Node
  | a :: b :: rest => if isNamed name a then some b else belowInput name (b :: rest)
  | _ => none

/-- The submit button. -/
def submitButton (children : List Node) : Option Node :=
  children.find? (isElem "button")

/-- The element `<ErrorMessage message={m} />`. -/
def schemaMessage (m : JSVal) : Node :=
  .elem "ErrorMessage" [("message", m)] []

/-! ## The toast effect over a session -/

/-- The dependencies `[isSubmitted, errors]` of the toast effect at one render.
`errorsRef` stands for the identity of the `errors` object, which is what the
dependency comparison `Object.is` looks at. -/
structure Deps where
  isSubmitted : Bool
  errorsRef : Nat
  errors : Obj

/-- Whether the dependency array differs from that of the previous render. -/
def depsChanged (prev cur : Deps) : Bool :=
  prev.isSubmitted != cur.isSubmitted || prev.errorsRef != cur.errorsRef

/-- The toast effect over the renders that follow `prev`: its body (lines
48-50) runs after each render whose dependencies changed. -/
def runToastEffect : Deps → List Deps → List Call
  | _, [] => []
  | prev, cur :: rest =>
    (if depsChanged prev cur then toastEffect cur.isSubmitted cur.errors else []) ++
      runToastEffect cur rest

/-- What happens to the form between renders: a submission, or a
re-validation without a submission; each leaves an errors mapping. -/
inductive FormEvent where
  | submit (errors : Obj)
  | revalidate (errors : Obj)

/-- Modelled from the spec: the form state belongs to the form library; the
spec has the validation errors "recomputed on every submit attempt" (a new
`errors` object each time) and `isSubmitted` set by a submission. -/
def applyEvent (d : Deps) : FormEvent → Deps
  | .submit errors => { isSubmitted := true, errorsRef := d.errorsRef + 1, errors := errors }
  | .revalidate errors =>
    { isSubmitted := d.isSubmitted, errorsRef := d.errorsRef + 1, errors := errors }

/-- The dependencies at the first render: nothing submitted, no errors. -/
def mountDeps : Deps := { isSubmitted := false, errorsRef := 0, errors := [] }

/-- The renders that a sequence of events produces after the render `d`. -/
def renders : Deps → List FormEvent → List Deps
  | _, [] => []
  | d, ev :: evs => applyEvent d ev :: renders (applyEvent d ev) evs

/-- The toast calls of a whole session: the effect runs after the first render
and then after each render whose dependencies changed. -/
def sessionToasts (events : List FormEvent) : List Call :=
  toastEffect mountDeps.isSubmitted mountDeps.errors ++
    runToastEffect mountDeps (renders mountDeps events)

/-- The number of submissions that leave a non-empty errors mapping. -/
def failedSubmissions : List FormEvent → Nat
  | [] => 0
  | .submit errors :: evs => (if errors.isEmpty then 0 else 1) + failedSubmissions evs
  | .revalidate _ :: evs => failedSubmissions evs

/-- The number of re-validations that leave a non-empty errors mapping while
`isSubmitted` is set (`submitted` tells whether it is set at the start). -/
def failedRevalidations : Bool → List FormEvent → Nat
  | _, [] => 0
  | _, .submit _ :: evs => failedRevalidations true evs
  | submitted, .revalidate errors :: evs =>
    (if submitted && !errors.isEmpty then 1 else 0) + failedRevalidations submitted evs

/-- The field that comes first in form order among those with an error. -/
def firstInvalid (errors : Obj) : Option String :=
  formOrder.find? (fun f => hasKey errors f)

/-! ## Sample inputs -/

/-- A store state after a failed signup request. -/
def storeFailed : Obj :=
  [("loading", .obj [("signup", .bool false), ("login", .bool false)]),
   ("error", .obj [("signup", .bool true), ("login", .bool false)]),
   ("userSignup", .fn "userSignup")]

/-- A store state while a signup request is in flight. -/
def storeLoading : Obj :=
  [("loading", .obj [("signup", .bool true), ("login", .bool false)]),
   ("error", .obj [("signup", .bool false), ("login", .bool false)]),
   ("userSignup", .fn "userSignup")]

/-- A validation error with the given message. -/
def fieldError (message : String) : JSVal :=
  .obj [("type", .str "any.invalid"), ("message", .str message)]

/-- The form before any submission. -/
def formIdle : FormState :=
  { errors := [], isSubmitted := false, values := defaultFormData }

/-- The form after a submission with an empty confirmPassword. -/
def formEmptyConfirm : FormState :=
  { errors := [("confirmPassword", fieldError "Confirm password is required")],
    isSubmitted := true,
    values := { email := "a@b.co", username := "ann", password := "Abc123!",
                confirmPassword := "", gender := "female" } }

/-- The form after a submission with a confirmPassword that does not match. -/
def formMismatch : FormState :=
  { errors := [("confirmPassword", fieldError "Passwords do not match")],
    isSubmitted := true,
    values := { email := "a@b.co", username := "ann", password := "Abc123!",
                confirmPassword := "Abc124!", gender := "female" } }

/-- An errors mapping whose keys are not in form order. -/
def errorsGenderFirst : Obj :=
  [("gender", fieldError "Gender is required"), ("email", fieldError "Email is required")]

/-- An errors mapping whose keys are in form order. -/
def errorsInOrder : Obj :=
  [("username", fieldError "Username is required"), ("gender", fieldError "Gender is required")]

/-! ## Reading the rendered form -/

theorem signup_eq (form : FormState) (store : Obj) (tree : Node)
    (h : Signup form store = some tree) :
    ∃ loading error, selectLoading store = some loading ∧ selectError store = some error ∧
      tree = view form loading error := by
  unfold Signup at h
  split at h
  · next loading error h1 h2 =>
    exact ⟨loading, error, h1, h2, (Option.some.inj h).symm⟩
  · cases h

theorem formOf_view (form : FormState) (loading error : JSVal) :
    formOf (view form loading error) = formChildren form loading error := rfl

theorem isNamed_andThen (name : String) (a v : JSVal) :
    isNamed name (andThen a (errorMessage v)) = false := by
  unfold andThen
  split <;> rfl

theorem isElem_andThen (a v : JSVal) :
    isElem "button" (andThen a (errorMessage v)) = false := by
  unfold andThen
  split <;> rfl

theorem isNamed_confirm (name : String) (c : Bool) (a v : JSVal) :
    isNamed name (if c = true then requiredMessage else andThen a (errorMessage v)) = false := by
  cases c
  · simp [isNamed_andThen]
  · rfl

theorem isElem_confirm (c : Bool) (a v : JSVal) :
    isElem "button" (if c = true then requiredMessage else andThen a (errorMessage v)) = false := by
  cases c
  · simp [isElem_andThen]
  · rfl

theorem below_email (form : FormState) (loading error : JSVal) :
    belowInput "email" (formChildren form loading error) =
      some (andThen (getProp form.errors "email") (errorMessage (getProp form.errors "email"))) := by
  rfl

theorem below_username (form : FormState) (loading error : JSVal) :
    belowInput "username" (formChildren form loading error) =
      some (andThen (getProp form.errors "username")
        (errorMessage (getProp form.errors "username"))) := by
  simp [formChildren, belowInput, isNamed_andThen, isNamed_confirm]
  simp [isNamed, Node.prop, jsxProps, objectAssign, setProp, hasKey, replaceProp, getProp, register]

theorem below_password (form : FormState) (loading error : JSVal) :
    belowInput "password" (formChildren form loading error) =
      some (andThen (getProp form.errors "password")
        (errorMessage (getProp form.errors "password"))) := by
  simp [formChildren, belowInput, isNamed_andThen, isNamed_confirm]
  simp [isNamed, Node.prop, jsxProps, objectAssign, setProp, hasKey, replaceProp, getProp, register]

theorem below_confirmPassword (form : FormState) (loading error : JSVal) :
    belowInput "confirmPassword" (formChildren form loading error) =
      some (if truthy (isConfirmedPasswordError form) then requiredMessage
        else andThen (getProp form.errors "confirmPassword")
          (errorMessage (getProp form.errors "confirmPassword"))) := by
  simp [formChildren, belowInput, isNamed_andThen, isNamed_confirm]
  simp [isNamed, Node.prop, jsxProps, objectAssign, setProp, hasKey, replaceProp, getProp, register]

theorem below_gender (form : FormState) (loading error : JSVal) :
    belowInput "gender" (formChildren form loading error) =
      some (andThen (getProp form.errors "gender")
        (errorMessage (getProp form.errors "gender"))) := by
  simp [formChildren, belowInput, isNamed_andThen, isNamed_confirm]
  simp [isNamed, Node.prop, jsxProps, objectAssign, setProp, hasKey, replaceProp, getProp, register]

theorem inputError_email (form : FormState) (loading error : JSVal) :
    inputError "email" (formChildren form loading error) =
      jsOr (jsNot (jsNot (getProp form.errors "email"))) error := by
  rfl

theorem inputError_username (form : FormState) (loading error : JSVal) :
    inputError "username" (formChildren form loading error) =
      jsOr (jsNot (jsNot (getProp form.errors "username"))) error := by
  simp [formChildren, inputError, List.find?, isNamed_andThen, isNamed_confirm]
  simp [isNamed, Node.prop, jsxProps, objectAssign, setProp, hasKey, replaceProp, getProp, register]

theorem inputError_password (form : FormState) (loading error : JSVal) :
    inputError "password" (formChildren form loading error) =
      jsOr (jsNot (jsNot (getProp form.errors "password"))) error := by
  simp [formChildren, inputError, List.find?, isNamed_andThen, isNamed_confirm]
  simp [isNamed, Node.prop, jsxProps, objectAssign, setProp, hasKey, replaceProp, getProp, register]

theorem inputError_confirmPassword (form : FormState) (loading error : JSVal) :
    inputError "confirmPassword" (formChildren form loading error) =
      jsOr (jsNot (jsNot (getProp form.errors "confirmPassword")))
        (isConfirmedPasswordError form) := by
  simp [formChildren, inputError, List.find?, isNamed_andThen, isNamed_confirm]
  simp [isNamed, Node.prop, jsxProps, objectAssign, setProp, hasKey, replaceProp, getProp, register]

theorem submitButton_formChildren (form : FormState) (loading error : JSVal) :
    submitButton (formChildren form loading error) =
      some (.elem "button"
        [("type", .str "submit"), ("className", .str "btn btn-primary w-full"),
         ("disabled", loading)]
        (if truthy loading then
          [.elem "Fragment" []
            [.elem "Loader2" [("className", .str "size-5 animate-spin")] [],
             .text "Loading..."]]
        else [.text "Create Account"])) := by
  simp [formChildren, submitButton, List.find?, isElem_andThen, isElem_confirm]
  simp [isElem]

theorem requiredMessage_ne_schemaMessage (m : JSVal) : requiredMessage ≠ schemaMessage m := by
  intro h
  simp [requiredMessage, schemaMessage] at h

theorem andThen_obj (entry : Obj) (node : Node) : andThen (.obj entry) node = node := rfl

theorem getProp_of_hasKey_false (o : Obj) (k : String) (h : hasKey o k = false) :
    getProp o k = .undefined := by
  induction o with
  | nil => rfl
  | cons kv rest ih =>
    obtain ⟨k', v⟩ := kv
    simp only [hasKey] at h
    simp only [getProp]
    split
    · next hk => simp [hk] at h
    · next hk => simp [hk] at h; exact ih h

theorem confirm_flag_submitted_empty (form : FormState)
    (hs : form.isSubmitted = true) (hc : form.values.confirmPassword = "") :
    isConfirmedPasswordError form = .bool true := by
  simp [isConfirmedPasswordError, hs, hc, truthy, jsNot, watch]

theorem confirm_flag_nonempty (form : FormState) (hc : form.values.confirmPassword ≠ "") :
    truthy (isConfirmedPasswordError form) = false := by
  cases hs : form.isSubmitted <;>
    simp [isConfirmedPasswordError, hs, hc, truthy, jsNot, watch]

theorem confirm_flag_unsubmitted (form : FormState) (hs : form.isSubmitted = false) :
    isConfirmedPasswordError form = .bool false := by
  simp [isConfirmedPasswordError, hs, truthy]

/-- C2. After a submission, with an empty confirmPassword, the node below the
confirmPassword input is the paragraph with the text "Password is required.",
whatever the validation errors are, and it is never an `ErrorMessage`
element. -/
theorem empty_confirm_shows_required (form : FormState) (store : Obj) (tree : Node)
    (hs : form.isSubmitted = true) (hc : form.values.confirmPassword = "")
    (h : Signup form store = some tree) :
    belowInput "confirmPassword" (formOf tree) =
        some (.elem "p" [("className", .str "text-error text-sm mt-1 px-2")]
          [.text "Password is required."]) ∧
      ∀ m, belowInput "confirmPassword" (formOf tree) ≠
        some (.elem "ErrorMessage" [("message", m)] []) := by
  obtain ⟨loading, error, -, -, rfl⟩ := signup_eq form store tree h
  have hb : belowInput "confirmPassword" (formOf (view form loading error)) =
      some (.elem "p" [("className", .str "text-error text-sm mt-1 px-2")]
        [.text "Password is required."]) := by
    rw [formOf_view, below_confirmPassword, confirm_flag_submitted_empty form hs hc]
    rfl
  refine ⟨hb, fun m hm => ?_⟩
  rw [hb] at hm
  simp at hm

/-- The form after a submission with an empty confirmPassword: the paragraph
"Password is required." is below the confirmPassword input. -/
theorem empty_confirm_shows_required_witness :
    formEmptyConfirm.isSubmitted = true ∧ formEmptyConfirm.values.confirmPassword = "" ∧
      Signup formEmptyConfirm storeFailed =
        some (view formEmptyConfirm (.bool false) (.bool true)) ∧
      belowInput "confirmPassword"
        (formOf (view formEmptyConfirm (.bool false) (.bool true))) =
        some (.elem "p" [("className", .str "text-error text-sm mt-1 px-2")]
          [.text "Password is required."]) :=
  ⟨rfl, rfl, rfl, (empty_confirm_shows_required formEmptyConfirm storeFailed _ rfl rfl rfl).1⟩

/-- C3. With a non-empty confirmPassword and a confirmPassword entry with
message `m` in the validation errors, the node below the confirmPassword input
is `<ErrorMessage message={m} />` and not the fixed message, whether or not the
form was submitted. -/
theorem nonempty_confirm_shows_schema (form : FormState) (store : Obj) (tree : Node)
    (entry : Obj) (m : String)
    (hc : form.values.confirmPassword ≠ "")
    (he : getProp form.errors "confirmPassword" = .obj entry)
    (hm : getProp entry "message" = .str m)
    (h : Signup form store = some tree) :
    belowInput "confirmPassword" (formOf tree) = some (schemaMessage (.str m)) ∧
      belowInput "confirmPassword" (formOf tree) ≠ some requiredMessage := by
  obtain ⟨loading, error, -, -, rfl⟩ := signup_eq form store tree h
  have hb : belowInput "confirmPassword" (formOf (view form loading error)) =
      some (schemaMessage (.str m)) := by
    rw [formOf_view, below_confirmPassword, confirm_flag_nonempty form hc, he, andThen_obj]
    simp [errorMessage, JSVal.get, hm, schemaMessage]
  refine ⟨hb, fun hr => ?_⟩
  rw [hb] at hr
  exact requiredMessage_ne_schemaMessage _ (Option.some.inj hr).symm

/-- The form after a submission with a mismatching confirmPassword: the
schema's message is below the confirmPassword input. -/
theorem nonempty_confirm_shows_schema_witness :
    formMismatch.values.confirmPassword ≠ "" ∧
      getProp formMismatch.errors "confirmPassword" = fieldError "Passwords do not match" ∧
      Signup formMismatch storeLoading =
        some (view formMismatch (.bool true) (.bool false)) ∧
      belowInput "confirmPassword" (formOf (view formMismatch (.bool true) (.bool false))) =
        some (schemaMessage (.str "Passwords do not match")) :=
  ⟨by decide, rfl, rfl,
    (nonempty_confirm_shows_schema formMismatch storeLoading _
      [("type", .str "any.invalid"), ("message", .str "Passwords do not match")]
      "Passwords do not match" (by decide) rfl rfl rfl).1⟩

/-- C9. The `disabled` prop of the submit button is the flag `signup` of the
`loading` slice of the store; the button holds one fragment with the spinner
followed by "Loading..." when the flag is true (truthy) and exactly
"Create Account" when it is false (falsy), whatever the validation errors,
`isSubmitted` and `error.signup` are. -/
theorem submit_button_reflects_loading (form : FormState) (store : Obj) (tree : Node)
    (flags : Obj) (hl : getProp store "loading" = .obj flags)
    (h : Signup form store = some tree) :
    (submitButton (formOf tree)).map (fun btn => btn.prop "disabled") =
        some (getProp flags "signup") ∧
      (submitButton (formOf tree)).map Node.children =
        some (if truthy (getProp flags "signup") then
          [.elem "Fragment" []
            [.elem "Loader2" [("className", .str "size-5 animate-spin")] [],
             .text "Loading..."]]
        else [.text "Create Account"]) := by
  obtain ⟨loading, error, hl', -, rfl⟩ := signup_eq form store tree h
  have hsel : selectLoading store = some (getProp flags "signup") := by
    unfold selectLoading
    rw [hl]
    rfl
  rw [hsel] at hl'
  cases Option.some.inj hl'
  rw [formOf_view, submitButton_formChildren]
  exact ⟨rfl, rfl⟩

/-- The form rendered while a signup request is in flight (`loading.signup`
true in the store): the button is disabled and holds the spinner and
"Loading...". The same form on the store after a failed request
(`loading.signup` false): the button is enabled and holds "Create Account". -/
theorem submit_button_reflects_loading_witness :
    getProp storeLoading "loading" = .obj [("signup", .bool true), ("login", .bool false)] ∧
      Signup formIdle storeLoading = some (view formIdle (.bool true) (.bool false)) ∧
      ((submitButton (formOf (view formIdle (.bool true) (.bool false)))).map
          (fun btn => btn.prop "disabled") = some (.bool true) ∧
        (submitButton (formOf (view formIdle (.bool true) (.bool false)))).map Node.children =
          some [.elem "Fragment" []
            [.elem "Loader2" [("className", .str "size-5 animate-spin")] [],
             .text "Loading..."]]) ∧
      ((submitButton (formOf (view formIdle (.bool false) (.bool true)))).map
          (fun btn => btn.prop "disabled") = some (.bool false) ∧
        (submitButton (formOf (view formIdle (.bool false) (.bool true)))).map Node.children =
          some [.text "Create Account"]) :=
  ⟨rfl, rfl, submit_button_reflects_loading formIdle storeLoading _ _ rfl rfl,
    submit_button_reflects_loading formIdle storeFailed _ _ rfl rfl⟩

/-! ## Object lemmas -/

theorem hasKey_replaceProp (o : Obj) (k k' : String) (v : JSVal) :
    hasKey (replaceProp o k v) k' = hasKey o k' := by
  induction o with
  | nil => rfl
  | cons kv rest ih =>
    obtain ⟨k1, v1⟩ := kv
    by_cases h : k1 = k
    · simp [replaceProp, hasKey, h]
    · simp [replaceProp, hasKey, h, ih]

theorem hasKey_append (o : Obj) (k k' : String) (v : JSVal) :
    hasKey (o ++ [(k, v)]) k' = (hasKey o k' || decide (k = k')) := by
  induction o with
  | nil => simp [hasKey]
  | cons kv rest ih =>
    obtain ⟨k1, v1⟩ := kv
    by_cases h : k1 = k'
    · simp [hasKey, h]
    · simp [hasKey, h, ih]

theorem hasKey_setProp (o : Obj) (k k' : String) (v : JSVal) :
    hasKey (setProp o k v) k' = (hasKey o k' || decide (k = k')) := by
  unfold setProp
  split
  · next hk =>
    rw [hasKey_replaceProp]
    by_cases h : k = k'
    · subst h; simp [hk]
    · simp [h]
  · exact hasKey_append o k k' v

theorem hasKey_objectAssign (source target : Obj) (k : String) :
    hasKey (objectAssign target source) k = (hasKey target k || hasKey source k) := by
  induction source generalizing target with
  | nil => simp [objectAssign, hasKey]
  | cons kv rest ih =>
    obtain ⟨k1, v1⟩ := kv
    have step : objectAssign target ((k1, v1) :: rest) =
        objectAssign (setProp target k1 v1) rest := rfl
    rw [step, ih, hasKey_setProp]
    by_cases h : k1 = k
    · simp [hasKey, h]
    · simp [hasKey, h]

theorem getProp_replaceProp_of_ne (o : Obj) (k k' : String) (v : JSVal) (h : k ≠ k') :
    getProp (replaceProp o k v) k' = getProp o k' := by
  induction o with
  | nil => rfl
  | cons kv rest ih =>
    obtain ⟨k1, v1⟩ := kv
    by_cases h1 : k1 = k
    · subst h1
      simp [replaceProp, getProp, h]
    · by_cases h2 : k1 = k'
      · subst h2
        simp [replaceProp, getProp, h1]
      · simp [replaceProp, getProp, h1, h2, ih]

theorem getProp_append_of_ne (o : Obj) (k k' : String) (v : JSVal) (h : k ≠ k') :
    getProp (o ++ [(k, v)]) k' = getProp o k' := by
  induction o with
  | nil => simp [getProp, h]
  | cons kv rest ih =>
    obtain ⟨k1, v1⟩ := kv
    by_cases h2 : k1 = k'
    · simp [getProp, h2]
    · simp [getProp, h2, ih]

theorem getProp_setProp_of_ne (o : Obj) (k k' : String) (v : JSVal) (h : k ≠ k') :
    getProp (setProp o k v) k' = getProp o k' := by
  unfold setProp
  split
  · exact getProp_replaceProp_of_ne o k k' v h
  · exact getProp_append_of_ne o k k' v h

theorem getProp_objectAssign_of_absent (source target : Obj) (k : String)
    (h : hasKey source k = false) :
    getProp (objectAssign target source) k = getProp target k := by
  induction source generalizing target with
  | nil => rfl
  | cons kv rest ih =>
    obtain ⟨k1, v1⟩ := kv
    have step : objectAssign target ((k1, v1) :: rest) =
        objectAssign (setProp target k1 v1) rest := rfl
    by_cases h1 : k1 = k
    · simp [hasKey, h1] at h
    · simp [hasKey, h1] at h
      rw [step, ih _ h, getProp_setProp_of_ne _ _ _ _ h1]

theorem mem_objectKeys_iff (o : Obj) (k : String) :
    k ∈ objectKeys o ↔ hasKey o k = true := by
  induction o with
  | nil => simp [objectKeys, hasKey]
  | cons kv rest ih =>
    obtain ⟨k1, v1⟩ := kv
    by_cases h : k1 = k
    · simp [objectKeys, hasKey, h]
    · have h' : ¬ k = k1 := fun e => h e.symm
      simp only [objectKeys] at ih
      simp [objectKeys, hasKey, h, h', ih]

/-! ## The unmount cleanup -/

/-- C1. The unmount cleanup leaves `error.signup` as it was: when the `error`
slice of the store is an object (with no flag itself named `error`), the slice
is the same object after the cleanup, so a flag that was true stays true. -/
theorem cleanup_keeps_error_flag (s flags : Obj)
    (he : getProp s "error" = .obj flags) (hk : hasKey flags "error" = false) :
    getProp (unmountCleanup s) "error" = .obj flags ∧
      selectError (unmountCleanup s) = some (getProp flags "signup") := by
  have hu : hasKey (cleanupUpdater s) "error" = false := by
    unfold cleanupUpdater
    rw [hasKey_setProp, hasKey_objectAssign, he]
    simp [spreadProps, hasKey, hk]
  have hg : getProp (unmountCleanup s) "error" = .obj flags := by
    unfold unmountCleanup setState
    rw [getProp_objectAssign_of_absent _ _ _ hu, he]
  refine ⟨hg, ?_⟩
  unfold selectError
  rw [hg]
  rfl

/-- The cleanup run on the store state after a failed signup: `error.signup`
is still true. -/
theorem cleanup_keeps_error_flag_witness :
    getProp storeFailed "error" = .obj [("signup", .bool true), ("login", .bool false)] ∧
      hasKey [("signup", JSVal.bool true), ("login", JSVal.bool false)] "error" = false ∧
      selectError (unmountCleanup storeFailed) = some (.bool true) :=
  ⟨rfl, rfl, (cleanup_keeps_error_flag storeFailed _ rfl rfl).2⟩

theorem hasKey_unmountCleanup_signup (s : Obj) :
    hasKey (unmountCleanup s) "signup" = true := by
  unfold unmountCleanup setState cleanupUpdater
  rw [hasKey_objectAssign, hasKey_setProp]
  simp

/-- C7. The unmount cleanup writes a top-level key `signup` into the store:
every store state has that key after it. The store state after a failed signup
has no top-level `signup` or `login` key; after the cleanup it has both, and
its `error` slice is untouched. -/
theorem cleanup_adds_top_level_keys :
    (∀ s : Obj, hasKey (unmountCleanup s) "signup" = true) ∧
      hasKey storeFailed "signup" = false ∧ hasKey storeFailed "login" = false ∧
      unmountCleanup storeFailed =
        storeFailed ++ [("signup", .bool false), ("login", .bool false)] :=
  ⟨hasKey_unmountCleanup_signup, rfl, rfl, rfl⟩

/-! ## The focus effect -/

theorem find_head_of_sublist (l ks : List String) (k : String) (rest : List String)
    (hl : l.Nodup) (hs : (k :: rest).Sublist l) (hks : ks = k :: rest) :
    l.find? (fun g => decide (g ∈ ks)) = some k := by
  subst hks
  induction l with
  | nil => cases hs
  | cons a l' ih =>
    have hnd := List.nodup_cons.mp hl
    cases hs with
    | cons _ h =>
      have hnot : a ∉ k :: rest := fun hm => hnd.1 (h.subset hm)
      rw [List.find?_cons_of_neg _ (by simpa using hnot)]
      exact ih hnd.2 h
    | cons₂ _ h =>
      simp [List.find?]

theorem formOrder_nodup : formOrder.Nodup := by
  decide

theorem formOrder_nonempty_names (f : String) (hf : f ∈ formOrder) : f ≠ "" := by
  intro h
  subst h
  revert hf
  decide

/-- When the keys of `errors` come in form order (email, username, password,
confirmPassword, gender) and there is at least one, the focus effect calls
`setFocus` exactly once, with the earliest field in form order among those
that have an error. -/
theorem focus_first_invalid_in_order (errors : Obj) (hne : errors ≠ [])
    (hord : (objectKeys errors).Sublist formOrder) :
    ∃ f, firstInvalid errors = some f ∧ focusEffect errors = [.setFocus f] := by
  cases errors with
  | nil => exact absurd rfl hne
  | cons kv rest =>
    obtain ⟨k, v⟩ := kv
    refine ⟨k, ?_, ?_⟩
    · have hfun : (fun f => hasKey ((k, v) :: rest) f) =
          (fun g => decide (g ∈ objectKeys ((k, v) :: rest))) := by
        funext g
        by_cases hg : hasKey ((k, v) :: rest) g = true
        · simp [hg, (mem_objectKeys_iff _ g).mpr hg]
        · have hn : g ∉ objectKeys ((k, v) :: rest) := fun hm =>
            hg ((mem_objectKeys_iff _ g).mp hm)
          simp [hg, hn]
      unfold firstInvalid
      rw [hfun]
      exact find_head_of_sublist formOrder _ k (objectKeys rest) formOrder_nodup hord rfl
    · have hk : k ∈ formOrder := hord.subset (by simp [objectKeys])
      have hk' : k ≠ "" := formOrder_nonempty_names k hk
      simp [focusEffect, objectKeys, truthy, hk']

/-- Errors on username and gender, keys in form order: focus goes to
username. -/
theorem focus_first_invalid_in_order_witness :
    errorsInOrder ≠ [] ∧ (objectKeys errorsInOrder).Sublist formOrder ∧
      ∃ f, firstInvalid errorsInOrder = some f ∧ focusEffect errorsInOrder = [.setFocus f] :=
  have hne : errorsInOrder ≠ [] := by simp [errorsInOrder]
  have hord : (objectKeys errorsInOrder).Sublist formOrder := by
    simp [objectKeys, errorsInOrder, formOrder]
  ⟨hne, hord, focus_first_invalid_in_order errorsInOrder hne hord⟩

theorem focusEffect_first_key (k : String) (v : JSVal) (rest : Obj) (hk : k ≠ "") :
    focusEffect ((k, v) :: rest) = [.setFocus k] := by
  simp [focusEffect, objectKeys, truthy, hk]

/-- C4. The focus effect follows the key order of `errors`, not the form
order: it calls `setFocus` once with the first key of `errors`, whatever
follows. With errors on gender and email and the key `gender` first, the
earliest invalid field in form order is email, but the effect calls `setFocus`
with gender. -/
theorem focus_follows_key_order :
    (∀ (k : String) (v : JSVal) (rest : Obj), k ≠ "" →
        focusEffect ((k, v) :: rest) = [.setFocus k]) ∧
      firstInvalid errorsGenderFirst = some "email" ∧
      focusEffect errorsGenderFirst = [.setFocus "gender"] :=
  ⟨focusEffect_first_key, by decide, by decide⟩

/-! ## Submission -/

/-- C8. With `handleSubmit` running the resolver and calling the callback when
it reports no error, `userSignup` is called once with the form values as they
are when the resolver reports no error, and is not called otherwise. -/
theorem submit_forwards_payload (resolver : FormData → Obj) (d : FormData) :
    formOnSubmit resolver d =
      if objectKeys (resolver d) = [] then [.userSignup d] else [] := by
  unfold formOnSubmit handleSubmit submitCallback
  cases h : objectKeys (resolver d) <;> simp

/-! ## The toast effect -/

theorem depsChanged_applyEvent (d : Deps) (ev : FormEvent) :
    depsChanged d (applyEvent d ev) = true := by
  cases ev <;> simp [depsChanged, applyEvent]

theorem toastEffect_eq_replicate (isSubmitted : Bool) (errors : Obj) :
    toastEffect isSubmitted errors =
      List.replicate (if isSubmitted && !errors.isEmpty then 1 else 0)
        (.toastError toastMessage) := by
  cases errors <;> cases isSubmitted <;> simp [toastEffect, objectKeys]

theorem runToastEffect_renders (d : Deps) (events : List FormEvent) :
    runToastEffect d (renders d events) =
      List.replicate (failedSubmissions events + failedRevalidations d.isSubmitted events)
        (.toastError toastMessage) := by
  induction events generalizing d with
  | nil => rfl
  | cons ev evs ih =>
    simp only [renders, runToastEffect, depsChanged_applyEvent, if_true, ih,
      toastEffect_eq_replicate, ← List.replicate_add]
    cases ev with
    | submit errors =>
      cases errors <;> simp [applyEvent, failedSubmissions, failedRevalidations, Nat.add_assoc]
    | revalidate errors =>
      congr 1
      simp only [applyEvent, failedSubmissions, failedRevalidations]
      omega

/-- C5. Over a session, `toast.error` is called once for each submission that
leaves a non-empty errors mapping, never for one that leaves it empty, and once
more for each re-validation that leaves a non-empty errors mapping after a
submission; nothing else is called by the effect. -/
theorem toasts_per_session (events : List FormEvent) :
    sessionToasts events =
      List.replicate (failedSubmissions events + failedRevalidations false events)
        (.toastError toastMessage) := by
  unfold sessionToasts
  rw [runToastEffect_renders]
  rfl

/-- One failed submission followed by one re-validation that still finds an
error: one submission, two toasts. -/
theorem revalidation_toasts_again :
    failedSubmissions
        [.submit [("email", fieldError "Email is required")],
         .revalidate [("email", fieldError "Email must be valid")]] = 1 ∧
      sessionToasts
        [.submit [("email", fieldError "Email is required")],
         .revalidate [("email", fieldError "Email must be valid")]] =
        [.toastError toastMessage, .toastError toastMessage] := by
  constructor
  · rfl
  · rfl

/-! ## Error indicators and messages -/

theorem belowInput_formChildren (form : FormState) (loading error : JSVal) (f : String)
    (hf : f ∈ formOrder) :
    belowInput f (formChildren form loading error) =
      some (if f = "confirmPassword" ∧ truthy (isConfirmedPasswordError form) = true then
        requiredMessage
      else andThen (getProp form.errors f) (errorMessage (getProp form.errors f))) := by
  simp only [formOrder, List.mem_cons, List.mem_singleton, List.not_mem_nil, or_false] at hf
  rcases hf with h | h | h | h | h <;> subst h
  · rw [below_email]; simp
  · rw [below_username]; simp
  · rw [below_password]; simp
  · rw [below_confirmPassword]; simp
  · rw [below_gender]; simp

theorem andThen_undefined (node : Node) : andThen .undefined node = .value .undefined := rfl

/-- C6. With no validation error, nothing submitted and `error.signup` true in
the store, the `error` prop is true on the email, username and password inputs
and false on the confirmPassword input, and nothing is rendered below any of
the five fields. -/
theorem server_error_indicators (form : FormState) (store : Obj) (tree : Node)
    (he : form.errors = []) (hs : form.isSubmitted = false)
    (hf : selectError store = some (.bool true)) (h : Signup form store = some tree) :
    inputError "email" (formOf tree) = .bool true ∧
      inputError "username" (formOf tree) = .bool true ∧
      inputError "password" (formOf tree) = .bool true ∧
      inputError "confirmPassword" (formOf tree) = .bool false ∧
      ∀ f ∈ formOrder, belowInput f (formOf tree) = some (.value .undefined) := by
  obtain ⟨loading, error, -, he', rfl⟩ := signup_eq form store tree h
  rw [hf] at he'
  cases Option.some.inj he'
  rw [formOf_view, inputError_email, inputError_username, inputError_password,
    inputError_confirmPassword, confirm_flag_unsubmitted form hs, he]
  refine ⟨rfl, rfl, rfl, rfl, fun f hmem => ?_⟩
  rw [belowInput_formChildren _ _ _ f hmem, confirm_flag_unsubmitted form hs, he]
  simp [truthy, getProp, andThen_undefined]

/-- The form before any submission, rendered on the store state after a failed
signup. -/
theorem server_error_indicators_witness :
    formIdle.errors = [] ∧ formIdle.isSubmitted = false ∧
      selectError storeFailed = some (.bool true) ∧
      Signup formIdle storeFailed = some (view formIdle (.bool false) (.bool true)) ∧
      inputError "password" (formOf (view formIdle (.bool false) (.bool true))) = .bool true ∧
      inputError "confirmPassword" (formOf (view formIdle (.bool false) (.bool true))) =
        .bool false :=
  ⟨rfl, rfl, rfl, rfl,
    (server_error_indicators formIdle storeFailed _ rfl rfl rfl rfl).2.2.1,
    (server_error_indicators formIdle storeFailed _ rfl rfl rfl rfl).2.2.2.1⟩

/-- The form before any submission, rendered on the store state after a failed
signup: no validation error, nothing submitted, `error.signup` true, and the
`error` prop of the password input is truthy. -/
theorem server_error_marks_password :
    formIdle.errors = [] ∧ formIdle.isSubmitted = false ∧
      selectError storeFailed = some (.bool true) ∧
      (Signup formIdle storeFailed).map
        (fun tree => truthy (inputError "password" (formOf tree))) = some true :=
  ⟨rfl, rfl, rfl, rfl⟩

/-- C10. For each of the five fields: an entry with a message in `errors`
puts `<ErrorMessage>` with that message below the field - for confirmPassword
only when the form is not submitted or confirmPassword is non-empty; and
without an entry no `<ErrorMessage>` is below the field. -/
theorem field_error_message (form : FormState) (store : Obj) (tree : Node) (f : String)
    (hf : f ∈ formOrder) (h : Signup form store = some tree) :
    (∀ entry : Obj, getProp form.errors f = .obj entry →
        (f = "confirmPassword" →
          form.isSubmitted = false ∨ form.values.confirmPassword ≠ "") →
        belowInput f (formOf tree) = some (schemaMessage (getProp entry "message"))) ∧
      (hasKey form.errors f = false →
        ∀ m, belowInput f (formOf tree) ≠ some (schemaMessage m)) := by
  obtain ⟨loading, error, -, -, rfl⟩ := signup_eq form store tree h
  rw [formOf_view, belowInput_formChildren _ _ _ f hf]
  constructor
  · intro entry he hc
    have hno : ¬ (f = "confirmPassword" ∧ truthy (isConfirmedPasswordError form) = true) := by
      rintro ⟨hfc, ht⟩
      rcases hc hfc with hs | hv
      · rw [confirm_flag_unsubmitted form hs] at ht
        cases ht
      · rw [confirm_flag_nonempty form hv] at ht
        cases ht
    rw [if_neg hno, he, andThen_obj]
    rfl
  · intro hk m hm
    rw [getProp_of_hasKey_false _ _ hk, andThen_undefined] at hm
    split at hm
    · exact requiredMessage_ne_schemaMessage m (Option.some.inj hm)
    · cases hm

/-- The form after a submission with a mismatching confirmPassword: the
schema's message is below the confirmPassword input; there is no entry for
email and no `<ErrorMessage>` below the email input. -/
theorem field_error_message_witness :
    "confirmPassword" ∈ formOrder ∧
      Signup formMismatch storeFailed =
        some (view formMismatch (.bool false) (.bool true)) ∧
      belowInput "confirmPassword" (formOf (view formMismatch (.bool false) (.bool true))) =
        some (schemaMessage (.str "Passwords do not match")) :=
  ⟨by decide, rfl,
    (field_error_message formMismatch storeFailed _ "confirmPassword" (by decide) rfl).1
      [("type", .str "any.invalid"), ("message", .str "Passwords do not match")] rfl
      (fun _ => Or.inr (by decide))⟩

/-- The form after a submission with an empty confirmPassword, and an entry for
confirmPassword in `errors`: the fixed message is below the confirmPassword
input, not the schema's. -/
theorem empty_confirm_hides_schema_message :
    getProp formEmptyConfirm.errors "confirmPassword" =
        fieldError "Confirm password is required" ∧
      (Signup formEmptyConfirm storeFailed).bind
        (fun tree => belowInput "confirmPassword" (formOf tree)) = some requiredMessage ∧
      requiredMessage ≠ schemaMessage (.str "Confirm password is required") :=
  ⟨rfl, rfl, requiredMessage_ne_schemaMessage _⟩

end SignUp
